import Mathlib

/-!
Shallow embedding of the PropertyData MCP server (`src/index.ts`).

The program is a protocol adapter: a static catalog of tool descriptors
(`tools`), a handler table (`toolHandlers`) mapping each tool name to a REST
path and the argument keys it forwards, an HTTP helper (`propertydataCall`)
that builds a GET URL via the WHATWG `URL`/`URLSearchParams` API and converts
the fetch outcome into a JSON value, and a dispatcher (the
`CallToolRequestSchema` handler) that resolves a tool name, invokes the
handler, and wraps the result in an MCP content envelope.

The embedding makes the I/O environment explicit: the outcome of the single
`fetch` call is passed in as a `FetchOutcome` value, and the helper returns
both the list of URLs it requested (its outbound trace) and the JSON value it
produces.
-/

namespace PropertyData

/-! ### JSON values

JavaScript JSON values as produced by `response.json()` and consumed by
`JSON.stringify`.  Numbers carry their JavaScript decimal rendering as text
(the claims never probe float formatting), strings are Lean strings.  The
array and object spines are mutual inductives so that all recursions are
structural. -/

mutual

inductive JVal where
  | jnull : JVal
  | jbool : Bool → JVal
  | jnum : String → JVal
  | jstr : String → JVal
  | jarr : JArr → JVal
  | jobj : JObj → JVal
deriving DecidableEq

inductive JArr where
  | nil : JArr
  | cons : JVal → JArr → JArr
deriving DecidableEq

inductive JObj where
  | nil : JObj
  | cons : String → JVal → JObj → JObj
deriving DecidableEq

end

/-- Lowercase hex digit, used by `JSON.stringify`'s `\u00xx` escapes. -/
def hexLower (n : Nat) : Char :=
  if n < 10 then Char.ofNat (48 + n) else Char.ofNat (87 + n)

/-- Uppercase hex digit, used by percent-encoding. -/
def hexUpper (n : Nat) : Char :=
  if n < 10 then Char.ofNat (48 + n) else Char.ofNat (55 + n)

/-- How `JSON.stringify` escapes a single character inside a string literal:
`"` and `\` are backslash-escaped, the control characters with short escapes
use them, other control characters become `\u00xx` (lowercase hex), and
everything else is emitted verbatim. -/
def escChar (c : Char) : String :=
  if c = '"' then "\\\""
  else if c = '\\' then "\\\\"
  else if c = Char.ofNat 8 then "\\b"
  else if c = Char.ofNat 9 then "\\t"
  else if c = Char.ofNat 10 then "\\n"
  else if c = Char.ofNat 12 then "\\f"
  else if c = Char.ofNat 13 then "\\r"
  else if c.toNat < 32 then
    "\\u00" ++ String.mk [hexLower (c.toNat / 16), hexLower (c.toNat % 16)]
  else String.mk [c]

/-- `JSON.stringify`'s quoted rendering of a string. -/
def quoteJson (s : String) : String :=
  "\"" ++ String.join (s.data.map escChar) ++ "\""

/-- `n` levels of the two-space indent of `JSON.stringify(v, null, 2)`. -/
def jsonIndent (lvl : Nat) : String :=
  String.mk (List.replicate (2 * lvl) ' ')

mutual

/-- `JSON.stringify(v, null, 2)` at nesting level `lvl`: the exact text the
server puts into the envelope's single text part. -/
def renderVal (lvl : Nat) : JVal → String
  | .jnull => "null"
  | .jbool true => "true"
  | .jbool false => "false"
  | .jnum s => s
  | .jstr s => quoteJson s
  | .jarr .nil => "[]"
  | .jarr xs => "[\n" ++ renderArr (lvl + 1) xs ++ "\n" ++ jsonIndent lvl ++ "]"
  | .jobj .nil => "\x7b\x7d"
  | .jobj fs =>
      "\x7b\n" ++ renderObj (lvl + 1) fs ++ "\n" ++ jsonIndent lvl ++ "\x7d"

/-- Array elements, one per line, comma-separated. -/
def renderArr (lvl : Nat) : JArr → String
  | .nil => ""
  | .cons v .nil => jsonIndent lvl ++ renderVal lvl v
  | .cons v rest => jsonIndent lvl ++ renderVal lvl v ++ ",\n" ++ renderArr lvl rest

/-- Object fields, one per line, `"key": value`, comma-separated. -/
def renderObj (lvl : Nat) : JObj → String
  | .nil => ""
  | .cons k v .nil => jsonIndent lvl ++ quoteJson k ++ ": " ++ renderVal lvl v
  | .cons k v rest =>
      jsonIndent lvl ++ quoteJson k ++ ": " ++ renderVal lvl v ++ ",\n" ++
        renderObj lvl rest

end

/-- `JSON.stringify(v, null, 2)` — the dispatcher's serialization of a tool
result (src/index.ts line 891). -/
def stringify2 (v : JVal) : String := renderVal 0 v

/-- The JSON object `{"error": msg}` returned by `propertydataCall` on every
failure path. -/
def errObj (msg : String) : JVal := .jobj (.cons "error" (.jstr msg) .nil)

/-! ### Argument values and URL construction

Tool arguments arrive as an untyped JavaScript object.  The values the
declared schemas admit are strings, numbers, integers, booleans (and `null`,
which the helper explicitly skips).  Numbers carry their JavaScript decimal
rendering as text, matching the `jnum` convention. -/

inductive JSArg where
  | vstr : String → JSArg
  | vnum : String → JSArg
  | vbool : Bool → JSArg
  | vnull : JSArg
deriving DecidableEq

/-- JavaScript `String(value)` on an argument value (src/index.ts line 38).
`vnull` never reaches this point at runtime because the helper filters it
out, but `String(null) = "null"` is the faithful rendering. -/
def argToString : JSArg → String
  | .vstr s => s
  | .vnum s => s
  | .vbool true => "true"
  | .vbool false => "false"
  | .vnull => "null"

/-- UTF-8 encoding of one character, as a list of byte values. -/
def utf8Enc (c : Char) : List Nat :=
  let n := c.toNat
  if n < 0x80 then [n]
  else if n < 0x800 then [0xC0 + n / 0x40, 0x80 + n % 0x40]
  else if n < 0x10000 then
    [0xE0 + n / 0x1000, 0x80 + (n / 0x40) % 0x40, 0x80 + n % 0x40]
  else
    [0xF0 + n / 0x40000, 0x80 + (n / 0x1000) % 0x40, 0x80 + (n / 0x40) % 0x40,
      0x80 + n % 0x40]

/-- The UTF-8 bytes of a string. -/
def utf8Bytes (s : String) : List Nat := s.data.foldr (fun c acc => utf8Enc c ++ acc) []

/-- One byte under the WHATWG `application/x-www-form-urlencoded` serializer
(the encoding `URLSearchParams` applies to every name and value): space
becomes `+`; ASCII alphanumerics and `*`, `-`, `.`, `_` pass through; every
other byte becomes `%XX` with uppercase hex. -/
def formByte (b : Nat) : String :=
  if b = 0x20 then "+"
  else if b = 0x2A ∨ b = 0x2D ∨ b = 0x2E ∨ b = 0x5F ∨
      (0x30 ≤ b ∧ b ≤ 0x39) ∨ (0x41 ≤ b ∧ b ≤ 0x5A) ∨ (0x61 ≤ b ∧ b ≤ 0x7A) then
    String.mk [Char.ofNat b]
  else
    String.mk ['%', hexUpper (b / 16), hexUpper (b % 16)]

/-- Form-urlencoding of a whole string (over its UTF-8 bytes). -/
def formEncode (s : String) : String :=
  String.join ((utf8Bytes s).map formByte)

/-- The incoming `arguments` object of a `call_tool` request: an association
list from key to value.  An absent key models JavaScript `undefined`. -/
def Args : Type := List (String × JSArg)

/-- JavaScript property lookup `args.k`: `none` models `undefined`. -/
def lookupArg (a : Args) (k : String) : Option JSArg :=
  (List.find? (fun e => e.1 = k) a).map (·.2)

/-- The `params` object a handler passes to `propertydataCall`: for handler
keys `[k1, …, kn]` the handler builds `{ k1: args.k1, …, kn: args.kn }`
(property access on a missing key yields `undefined`, i.e. `none`). -/
def mkParams (keys : List String) (a : Args) : List (String × Option JSArg) :=
  keys.map (fun k => (k, lookupArg a k))

/-- The `Object.entries(params).forEach` filter of src/index.ts lines 36–40:
a pair is appended to the query exactly when its value is neither `null` nor
`undefined`, stringified with `String(value)`. -/
def presentParams (params : List (String × Option JSArg)) : List (String × String) :=
  params.filterMap fun kv =>
    match kv.2 with
    | none => none
    | some .vnull => none
    | some v => some (kv.1, argToString v)

/-- Fixed base URL (src/index.ts line 20). -/
def BASE_URL : String := "https://api.propertydata.co.uk"

/-- The query string `URLSearchParams` serializes: the credential under the
name `key` first (line 34), then the surviving params in order, each pair
form-urlencoded as `name=value` and joined with `&`. -/
def queryString (key : String) (params : List (String × Option JSArg)) : String :=
  String.intercalate "&"
    ((("key", key) :: presentParams params).map
      (fun kv => formEncode kv.1 ++ "=" ++ formEncode kv.2))

/-- `url.toString()` for the constructed URL.  The query is never empty
because the credential is always appended, so the serialization is always
`base ++ path ++ "?" ++ query`. -/
def requestURL (key endpoint : String) (params : List (String × Option JSArg)) : String :=
  BASE_URL ++ endpoint ++ "?" ++ queryString key params

/-! ### Fetch outcomes and the HTTP helper -/

deriving instance DecidableEq for Except

/-- What the environment's `fetch`/`response` pair does on a given request:
`status` is the HTTP status, `bodyText` is what `response.text()` yields, and
`json` is what `await response.json()` does — `.ok v` when the body parses as
the JSON value `v`, `.error e` when parsing throws an exception whose
JavaScript string rendering is `e`. -/
structure HttpResp where
  status : Nat
  bodyText : String
  json : Except String JVal
deriving DecidableEq

/-- Outcome of the single `fetch` call: either a response, or a network-level
failure (`fetch` rejects) whose exception renders as `msg`. -/
inductive FetchOutcome where
  | success : HttpResp → FetchOutcome
  | failure : String → FetchOutcome
deriving DecidableEq

/-- The API call helper `propertydataCall` (src/index.ts lines 29–54),
returning the list of URLs it fetched together with its result value.
`response.ok` is `200 ≤ status < 300`.  Note that the `try` block wraps both
the `fetch` and the `response.json()` parse, so a parse failure on a 2xx
response is caught by the same `catch` as a network failure and becomes
`{"error": "Request failed: " ++ e}`. -/
def propertydataCall (key endpoint : String) (params : List (String × Option JSArg))
    (out : FetchOutcome) : List String × JVal :=
  let url := requestURL key endpoint params
  match out with
  | .failure msg => ([url], errObj ("Request failed: " ++ msg))
  | .success r =>
      if 200 ≤ r.status ∧ r.status < 300 then
        match r.json with
        | .ok v => ([url], v)
        | .error e => ([url], errObj ("Request failed: " ++ e))
      else
        ([url], errObj ("API Error " ++ toString r.status ++ ": " ++ r.bodyText))

/-! ### Tool catalog and handler table

`toolTable` embeds `toolHandlers` (src/index.ts lines 748–856): every handler
is of the shape `(args) => propertydataCall(path, { k1: args.k1, … })`, so it
is captured by its path and its ordered list of forwarded argument keys (the
two account tools pass the empty object).  `toolDescriptors` embeds the
`tools` catalog (lines 57–745) by name, declared property keys with their
schema types, and required list; the human-readable description strings and
per-property help texts are pure documentation with no runtime behavior and
are not repeated here.  The two account tools declare no `required` field,
embedded as the empty list. -/

def toolTable : List (String × String × List String) := [
  ("address_match_uprn", "/address-match-uprn", ["address"]),
  ("get_uprn_data", "/uprn", ["uprn"]),
  ("get_uprns", "/uprns", ["postcode"]),
  ("get_uprn_title", "/uprn-title", ["uprn"]),
  ("get_title_data", "/title", ["postcode"]),
  ("get_title_use_class", "/title-use-class", ["postcode"]),
  ("get_estate_agents", "/agents", ["postcode"]),
  ("analyse_buildings", "/analyse-buildings", ["postcode"]),
  ("get_area_type", "/area-type", ["postcode"]),
  ("get_postcode_key_stats", "/postcode-key-stats", ["postcode"]),
  ("get_demographics", "/demographics", ["postcode"]),
  ("get_population_data", "/population", ["postcode"]),
  ("get_household_income", "/household-income", ["postcode"]),
  ("get_politics_data", "/politics", ["postcode"]),
  ("get_prices", "/prices", ["postcode"]),
  ("get_prices_per_sqf", "/prices-per-sqf", ["postcode"]),
  ("get_sold_prices", "/sold-prices", ["postcode"]),
  ("get_sold_prices_per_sqf", "/sold-prices-per-sqf", ["postcode"]),
  ("get_valuation_sale", "/valuation-sale", ["postcode", "address"]),
  ("get_valuation_rent", "/valuation-rent", ["postcode", "address"]),
  ("get_valuation_hmo", "/valuation-hmo", ["postcode", "address"]),
  ("get_valuation_historical", "/valuation-historical", ["postcode", "address"]),
  ("get_growth_data", "/growth", ["postcode"]),
  ("get_growth_psf", "/growth-psf", ["postcode"]),
  ("get_rental_demand", "/demand", ["postcode"]),
  ("get_rental_demand_rent", "/demand-rent", ["postcode"]),
  ("get_rents", "/rents", ["postcode"]),
  ("get_rents_hmo", "/rents-hmo", ["postcode"]),
  ("get_yields", "/yields", ["postcode"]),
  ("get_lha_rate", "/lha-rate", ["postcode"]),
  ("get_sourced_properties", "/sourced-properties", ["postcode"]),
  ("get_sourced_property", "/sourced-property", ["uprn"]),
  ("development_calculator", "/development-calculator", ["postcode", "build_cost", "land_cost"]),
  ("get_development_gdv", "/development-gdv", ["postcode"]),
  ("get_build_cost", "/build-cost", ["postcode"]),
  ("get_rebuild_cost", "/rebuild-cost", ["postcode"]),
  ("get_planning_applications", "/planning-applications", ["postcode"]),
  ("get_conservation_area", "/conservation-area", ["postcode"]),
  ("get_listed_buildings", "/listed-buildings", ["postcode"]),
  ("get_green_belt", "/green-belt", ["postcode"]),
  ("get_aonb_data", "/aonb", ["postcode"]),
  ("get_national_park", "/national-park", ["postcode"]),
  ("get_council_tax", "/council-tax", ["postcode"]),
  ("mortgage_calculator", "/mortgage-calculator", ["loan_amount", "deposit", "interest_rate", "term_years"]),
  ("get_mortgage_rates", "/mortgage-rates", ["postcode"]),
  ("stamp_duty_calculator", "/stamp-duty-calculator", ["property_value", "first_time_buyer"]),
  ("get_floor_areas", "/floor-areas", ["postcode"]),
  ("get_freeholds", "/freeholds", ["postcode"]),
  ("get_energy_efficiency", "/energy-efficiency", ["postcode"]),
  ("get_flood_risk", "/flood-risk", ["postcode"]),
  ("get_crime_data", "/crime", ["postcode"]),
  ("get_schools_data", "/schools", ["postcode"]),
  ("get_ptal_data", "/ptal", ["postcode"]),
  ("get_restaurants", "/restaurants", ["postcode"]),
  ("get_internet_speed", "/internet-speed", ["postcode"]),
  ("get_national_hmo_register", "/national-hmo-register", ["postcode"]),
  ("get_land_registry_documents", "/land-registry-documents", ["postcode"]),
  ("get_site_plan_documents", "/site-plan-documents", ["postcode"]),
  ("get_account_credits", "/account/credits", []),
  ("get_account_documents", "/account/documents", [])
]

structure ToolDescriptor where
  name : String
  properties : List (String × String)
  required : List String
deriving DecidableEq

def toolDescriptors : List ToolDescriptor := [
  ⟨"address_match_uprn", [("address", "string")], ["address"]⟩,
  ⟨"get_uprn_data", [("uprn", "string")], ["uprn"]⟩,
  ⟨"get_uprns", [("postcode", "string")], ["postcode"]⟩,
  ⟨"get_uprn_title", [("uprn", "string")], ["uprn"]⟩,
  ⟨"get_title_data", [("postcode", "string")], ["postcode"]⟩,
  ⟨"get_title_use_class", [("postcode", "string")], ["postcode"]⟩,
  ⟨"get_estate_agents", [("postcode", "string")], ["postcode"]⟩,
  ⟨"analyse_buildings", [("postcode", "string")], ["postcode"]⟩,
  ⟨"get_area_type", [("postcode", "string")], ["postcode"]⟩,
  ⟨"get_postcode_key_stats", [("postcode", "string")], ["postcode"]⟩,
  ⟨"get_demographics", [("postcode", "string")], ["postcode"]⟩,
  ⟨"get_population_data", [("postcode", "string")], ["postcode"]⟩,
  ⟨"get_household_income", [("postcode", "string")], ["postcode"]⟩,
  ⟨"get_politics_data", [("postcode", "string")], ["postcode"]⟩,
  ⟨"get_prices", [("postcode", "string")], ["postcode"]⟩,
  ⟨"get_prices_per_sqf", [("postcode", "string")], ["postcode"]⟩,
  ⟨"get_sold_prices", [("postcode", "string")], ["postcode"]⟩,
  ⟨"get_sold_prices_per_sqf", [("postcode", "string")], ["postcode"]⟩,
  ⟨"get_valuation_sale", [("postcode", "string"), ("address", "string")], ["postcode"]⟩,
  ⟨"get_valuation_rent", [("postcode", "string"), ("address", "string")], ["postcode"]⟩,
  ⟨"get_valuation_hmo", [("postcode", "string"), ("address", "string")], ["postcode"]⟩,
  ⟨"get_valuation_historical", [("postcode", "string"), ("address", "string")], ["postcode"]⟩,
  ⟨"get_growth_data", [("postcode", "string")], ["postcode"]⟩,
  ⟨"get_growth_psf", [("postcode", "string")], ["postcode"]⟩,
  ⟨"get_rental_demand", [("postcode", "string")], ["postcode"]⟩,
  ⟨"get_rental_demand_rent", [("postcode", "string")], ["postcode"]⟩,
  ⟨"get_rents", [("postcode", "string")], ["postcode"]⟩,
  ⟨"get_rents_hmo", [("postcode", "string")], ["postcode"]⟩,
  ⟨"get_yields", [("postcode", "string")], ["postcode"]⟩,
  ⟨"get_lha_rate", [("postcode", "string")], ["postcode"]⟩,
  ⟨"get_sourced_properties", [("postcode", "string")], ["postcode"]⟩,
  ⟨"get_sourced_property", [("uprn", "string")], ["uprn"]⟩,
  ⟨"development_calculator", [("postcode", "string"), ("build_cost", "number"), ("land_cost", "number")], ["postcode"]⟩,
  ⟨"get_development_gdv", [("postcode", "string")], ["postcode"]⟩,
  ⟨"get_build_cost", [("postcode", "string")], ["postcode"]⟩,
  ⟨"get_rebuild_cost", [("postcode", "string")], ["postcode"]⟩,
  ⟨"get_planning_applications", [("postcode", "string")], ["postcode"]⟩,
  ⟨"get_conservation_area", [("postcode", "string")], ["postcode"]⟩,
  ⟨"get_listed_buildings", [("postcode", "string")], ["postcode"]⟩,
  ⟨"get_green_belt", [("postcode", "string")], ["postcode"]⟩,
  ⟨"get_aonb_data", [("postcode", "string")], ["postcode"]⟩,
  ⟨"get_national_park", [("postcode", "string")], ["postcode"]⟩,
  ⟨"get_council_tax", [("postcode", "string")], ["postcode"]⟩,
  ⟨"mortgage_calculator", [("loan_amount", "number"), ("deposit", "number"), ("interest_rate", "number"), ("term_years", "integer")], ["loan_amount", "deposit", "interest_rate", "term_years"]⟩,
  ⟨"get_mortgage_rates", [("postcode", "string")], ["postcode"]⟩,
  ⟨"stamp_duty_calculator", [("property_value", "number"), ("first_time_buyer", "boolean")], ["property_value"]⟩,
  ⟨"get_floor_areas", [("postcode", "string")], ["postcode"]⟩,
  ⟨"get_freeholds", [("postcode", "string")], ["postcode"]⟩,
  ⟨"get_energy_efficiency", [("postcode", "string")], ["postcode"]⟩,
  ⟨"get_flood_risk", [("postcode", "string")], ["postcode"]⟩,
  ⟨"get_crime_data", [("postcode", "string")], ["postcode"]⟩,
  ⟨"get_schools_data", [("postcode", "string")], ["postcode"]⟩,
  ⟨"get_ptal_data", [("postcode", "string")], ["postcode"]⟩,
  ⟨"get_restaurants", [("postcode", "string")], ["postcode"]⟩,
  ⟨"get_internet_speed", [("postcode", "string")], ["postcode"]⟩,
  ⟨"get_national_hmo_register", [("postcode", "string")], ["postcode"]⟩,
  ⟨"get_land_registry_documents", [("postcode", "string")], ["postcode"]⟩,
  ⟨"get_site_plan_documents", [("postcode", "string")], ["postcode"]⟩,
  ⟨"get_account_credits", [], []⟩,
  ⟨"get_account_documents", [], []⟩
]

/-- The catalog's advertised tool names, in declaration order. -/
def catalogNames : List String := toolDescriptors.map (·.name)

/-- The handler table's keys, in declaration order. -/
def handlerNames : List String := toolTable.map (·.1)

/-- The own-entry part of the property access `toolHandlers[name]`
(src/index.ts line 880): resolve a tool name to its REST path and
forwarded-key list from the table itself; `none` means the object literal has
no own property of that name (the access then continues along the prototype
chain, see `objectPrototypeMembers`). -/
def lookupTool (name : String) : Option (String × List String) :=
  (List.find? (fun e => e.1 = name) toolTable).map (·.2)

/-- `toolHandlers` is a plain object literal, so a property access for a name
that is not an own key continues to `Object.prototype` and finds its members:
eleven methods and the `__proto__` accessor.  Every one of them yields a
truthy value (a function, or the prototype object itself for `__proto__`),
so the `if (!handler)` unknown-tool check of line 881 does not fire for these
names. -/
def objectPrototypeMembers : List String :=
  ["constructor", "hasOwnProperty", "isPrototypeOf", "propertyIsEnumerable",
   "toLocaleString", "toString", "valueOf", "__defineGetter__",
   "__defineSetter__", "__lookupGetter__", "__lookupSetter__", "__proto__"]

/-- The `required` list the catalog declares for a tool name (empty when the
name is not in the catalog). -/
def requiredOf (name : String) : List String :=
  match List.find? (fun d => d.name = name) toolDescriptors with
  | some d => d.required
  | none => []

/-! ### The dispatcher (`CallToolRequestSchema` handler, lines 877–906) -/

/-- One part of an MCP content envelope; the server only ever emits parts
with `type := "text"`. -/
structure ContentPart where
  type : String
  text : String
deriving DecidableEq

/-- The MCP result envelope `{ content: [...], isError?: boolean }`.
`isError := none` models the field being absent from the returned object (the
success path omits it); the catch path sets `some true`. -/
structure Envelope where
  content : List ContentPart
  isError : Option Bool
deriving DecidableEq

/-- Result of one `call_tool` dispatch: either the handler function threw
(the promise rejects and the SDK surfaces a protocol-level request error —
the `throw new Error(...)` of line 882), or it returned an envelope. -/
inductive DispatchResult where
  | thrown : String → DispatchResult
  | ok : Envelope → DispatchResult
deriving DecidableEq

/-- The `try`/`catch` of lines 885–905 around the awaited handler outcome:
a value becomes a single `"text"` part holding `JSON.stringify(result, null,
2)` with no `isError` field; an exception rendering as `e` becomes a single
`"text"` part `"Error: " ++ e` with `isError: true`. -/
def dispatchEnvelope : Except String JVal → Envelope
  | .ok v => { content := [{ type := "text", text := stringify2 v }], isError := none }
  | .error e =>
      { content := [{ type := "text", text := "Error: " ++ e }], isError := some true }

/-- The JSON value of one argument value, as `JSON.stringify` sees it. -/
def argToJVal : JSArg → JVal
  | .vstr s => .jstr s
  | .vnum s => .jnum s
  | .vbool b => .jbool b
  | .vnull => .jnull

/-- The JSON object spine of a whole arguments object. -/
def argsToJObj : List (String × JSArg) → JObj
  | [] => .nil
  | (k, v) :: rest => .cons k (argToJVal v) (argsToJObj rest)

/-- The arguments object as the JSON value `JSON.stringify` serializes. -/
def argsToJVal (a : Args) : JVal := .jobj (argsToJObj a)

/-- What `await handler(args || {})` does when `handler` is a member
inherited from `Object.prototype`.  The module is strict mode, and the
member was copied into a local `const` first, so it is called as a plain
function with `this = undefined`:
`toString` is specified to return `"[object Undefined]"` for an undefined
this value; `constructor` is the `Object` function, which returns its object
argument (here the arguments object) unchanged; the `__proto__` accessor
yields `Object.prototype` itself, which is not callable, so the call throws
`TypeError: handler is not a function`; every remaining member performs
`ToObject(this)` on its undefined this value and throws a `TypeError`
(V8 renders it `Cannot convert undefined or null to object`).  The thrown
errors are caught by the dispatcher's `catch`. -/
def inheritedCallResult (name : String) (args : Args) : Except String JVal :=
  if name = "toString" then .ok (.jstr "[object Undefined]")
  else if name = "constructor" then .ok (argsToJVal args)
  else if name = "__proto__" then .error "TypeError: handler is not a function"
  else .error "TypeError: Cannot convert undefined or null to object"

/-- The full `call_tool` dispatch for one request, given the environment's
fetch outcome `out`.  The property access `toolHandlers[name]` first finds an
own entry of the table; failing that it finds the truthy members inherited
from `Object.prototype`, which escape the `if (!handler)` check, get called,
and have their outcome wrapped by the `try`/`catch`; only a name that is
neither throws `"Unknown tool"` before any handler (and hence any fetch)
runs.  For a registered tool the handler's `propertydataCall` catches every
exception internally and returns normally, so the `try` body always
completes with a value (`Except.ok`).  The first component is the list of
outbound request URLs issued while serving the request (an inherited member
never calls `fetch`). -/
def callTool (key name : String) (args : Args) (out : FetchOutcome) :
    List String × DispatchResult :=
  match lookupTool name with
  | none =>
      if name ∈ objectPrototypeMembers then
        ([], .ok (dispatchEnvelope (inheritedCallResult name args)))
      else
        ([], .thrown ("Unknown tool: " ++ name))
  | some (path, keys) =>
      let r := propertydataCall key path (mkParams keys args) out
      (r.1, .ok (dispatchEnvelope (.ok r.2)))

/-! ### Helper lemmas about the argument filter -/

/-- A declared key that is present with a non-null value survives into the
outbound parameter list, stringified. -/
theorem mem_presentParams_of_lookup (keys : List String) (a : Args) (k : String)
    (v : JSArg) (hk : k ∈ keys) (hv : lookupArg a k = some v) (hnn : v ≠ .vnull) :
    (k, argToString v) ∈ presentParams (mkParams keys a) := by
  have hmem : (k, lookupArg a k) ∈ mkParams keys a :=
    List.mem_map.mpr ⟨k, hk, rfl⟩
  rw [hv] at hmem
  refine List.mem_filterMap.mpr ⟨(k, some v), hmem, ?_⟩
  cases v with
  | vnull => exact absurd rfl hnn
  | vstr s => rfl
  | vnum s => rfl
  | vbool b => rfl

/-- A key whose value is absent (`undefined`) or `null` contributes no pair
at all to the outbound parameter list. -/
theorem not_mem_presentParams_of_absent (keys : List String) (a : Args) (k s : String)
    (h : lookupArg a k = none ∨ lookupArg a k = some .vnull) :
    (k, s) ∉ presentParams (mkParams keys a) := by
  intro hmem
  rcases List.mem_filterMap.mp hmem with ⟨kv, hkv, hf⟩
  rcases List.mem_map.mp hkv with ⟨q, _, hkeq⟩
  subst hkeq
  cases hlq : lookupArg a q with
  | none => rw [hlq] at hf; exact Option.noConfusion hf
  | some v =>
      rw [hlq] at hf
      cases v with
      | vnull => exact Option.noConfusion hf
      | vstr t =>
          have : q = k := congrArg Prod.fst (Option.some.inj hf)
          subst this
          rcases h with h | h
          · rw [hlq] at h; exact Option.noConfusion h
          · rw [hlq] at h; exact JSArg.noConfusion (Option.some.inj h)
      | vnum t =>
          have : q = k := congrArg Prod.fst (Option.some.inj hf)
          subst this
          rcases h with h | h
          · rw [hlq] at h; exact Option.noConfusion h
          · rw [hlq] at h; exact JSArg.noConfusion (Option.some.inj h)
      | vbool b =>
          have : q = k := congrArg Prod.fst (Option.some.inj hf)
          subst this
          rcases h with h | h
          · rw [hlq] at h; exact Option.noConfusion h
          · rw [hlq] at h; exact JSArg.noConfusion (Option.some.inj h)

/-! ### Claim theorems -/

/-- C1: for every registered tool and every argument object, if the outbound
HTTP call returns a 2xx response whose body parses as JSON value `v`, then
`call_tool` returns a content envelope whose content is exactly one part of
type `"text"` whose text is the pretty-printed JSON serialization of `v`
itself (no reshaping, filtering or renaming), with the `isError` flag
absent. -/
theorem call_tool_success_pretty_json (key name path : String) (keys : List String)
    (args : Args) (status : Nat) (body : String) (v : JVal)
    (hreg : lookupTool name = some (path, keys))
    (h2xx : 200 ≤ status ∧ status < 300) :
    callTool key name args (.success ⟨status, body, .ok v⟩)
      = ([requestURL key path (mkParams keys args)],
         .ok ⟨[⟨"text", stringify2 v⟩], none⟩) := by
  simp [callTool, hreg, propertydataCall, dispatchEnvelope, h2xx]

/-- C1 witness: `call_tool("get_prices", {postcode: "SW1A 1AA"})` with a
stubbed 200 response whose body parses as the object `{"prices": {}}` yields
exactly one text part holding that object pretty-printed, with no error
flag. -/
theorem call_tool_success_pretty_json_witness :
    callTool "APIKEY123" "get_prices" [("postcode", JSArg.vstr "SW1A 1AA")]
        (.success ⟨200, "\x7b\"prices\": \x7b\x7d\x7d",
          .ok (JVal.jobj (.cons "prices" (.jobj .nil) .nil))⟩)
      = (["https://api.propertydata.co.uk/prices?key=APIKEY123&postcode=SW1A+1AA"],
         .ok ⟨[⟨"text", "\x7b\n  \"prices\": \x7b\x7d\n\x7d"⟩], none⟩) :=
  (call_tool_success_pretty_json "APIKEY123" "get_prices" "/prices" ["postcode"]
      [("postcode", JSArg.vstr "SW1A 1AA")] 200 "\x7b\"prices\": \x7b\x7d\x7d"
      (JVal.jobj (.cons "prices" (.jobj .nil) .nil))
      (by decide) (by decide)).trans (by decide)

/-- C2: for every registered tool, a non-2xx response with status `s` and
body text `b` yields a normal (non-error-flagged) envelope whose single text
part is the pretty-printed JSON of `{"error": "API Error " ++ s ++ ": " ++ b}`. -/
theorem call_tool_api_error_envelope (key name path : String) (keys : List String)
    (args : Args) (status : Nat) (body : String) (pj : Except String JVal)
    (hreg : lookupTool name = some (path, keys))
    (hnot : ¬(200 ≤ status ∧ status < 300)) :
    callTool key name args (.success ⟨status, body, pj⟩)
      = ([requestURL key path (mkParams keys args)],
         .ok ⟨[⟨"text", stringify2 (errObj ("API Error " ++ toString status ++ ": " ++ body))⟩], none⟩) := by
  simp [callTool, hreg, propertydataCall, dispatchEnvelope, hnot]

/-- C2 witness: a stubbed 404 response with body `"not found"` yields the
envelope whose text equals the pretty-printed `{"error": "API Error 404: not
found"}` and whose error flag is absent. -/
theorem call_tool_api_error_envelope_witness :
    callTool "APIKEY123" "get_prices" [("postcode", JSArg.vstr "SW1A 1AA")]
        (.success ⟨404, "not found", .error "SyntaxError"⟩)
      = (["https://api.propertydata.co.uk/prices?key=APIKEY123&postcode=SW1A+1AA"],
         .ok ⟨[⟨"text", "\x7b\n  \"error\": \"API Error 404: not found\"\n\x7d"⟩], none⟩) :=
  (call_tool_api_error_envelope "APIKEY123" "get_prices" "/prices" ["postcode"]
      [("postcode", JSArg.vstr "SW1A 1AA")] 404 "not found" (.error "SyntaxError")
      (by decide) (by decide)).trans (by decide)

/-- C3 counterexample: `call_tool("toString", {})` refutes the claim that
every name absent from the handler table is rejected with an `"Unknown
tool"` throw.  `"toString"` has no entry in the table, yet the property
access finds the truthy `Object.prototype.toString` inherited through the
prototype chain, so the unknown-tool check does not fire: the dispatch
returns a normal non-error-flagged envelope whose text is
`JSON.stringify("[object Undefined]", null, 2)` — it does not throw
(though, as the claim also asserts of unknown names, no outbound HTTP call
is attempted). -/
theorem call_tool_prototype_name_cex :
    lookupTool "toString" = none ∧
    callTool "APIKEY123" "toString" [] (.failure "unused")
      = ([], .ok ⟨[⟨"text", "\"[object Undefined]\""⟩], none⟩) ∧
    (callTool "APIKEY123" "toString" [] (.failure "unused")).2
      ≠ .thrown "Unknown tool: toString" := by
  refine ⟨by decide, by decide, by decide⟩

/-- C3 amended: a `call_tool` invocation whose name is absent from the
handler table, and is not one of the member names the table's object literal
inherits from `Object.prototype`, throws `"Unknown tool: " ++ name` (a
protocol-level rejection, not a content envelope) and issues no outbound
HTTP request at all. -/
theorem call_tool_unknown_tool_throws (key name : String) (args : Args)
    (out : FetchOutcome) (h : lookupTool name = none)
    (hp : name ∉ objectPrototypeMembers) :
    callTool key name args out = ([], .thrown ("Unknown tool: " ++ name)) ∧
    ∀ env : Envelope, (callTool key name args out).2 ≠ .ok env := by
  have hcall : callTool key name args out = ([], .thrown ("Unknown tool: " ++ name)) := by
    simp [callTool, h, hp]
  exact ⟨hcall, fun env hok => by rw [hcall] at hok; exact DispatchResult.noConfusion hok⟩

/-- C3 amended witness: `call_tool("nonexistent_tool", {})` — a name neither
in the handler table nor inherited from `Object.prototype` — rejects with
the `"Unknown tool"` indication and an empty outbound trace. -/
theorem call_tool_unknown_tool_throws_witness :
    callTool "APIKEY123" "nonexistent_tool" [] (.failure "unused")
      = ([], .thrown "Unknown tool: nonexistent_tool") :=
  (call_tool_unknown_tool_throws "APIKEY123" "nonexistent_tool" [] (.failure "unused")
      (by decide) (by decide)).1

/-- C4 counterexample: a 2xx response whose body fails to parse as JSON is
not delivered as an error-flagged envelope with text `"Error: " ++ e`; the
exception from `response.json()` is caught by the `catch` inside
`propertydataCall`, so the dispatch returns a normal envelope whose text is
the pretty-printed `{"error": "Request failed: " ++ e}`. -/
theorem call_tool_parse_failure_cex :
    (callTool "APIKEY123" "get_prices" [("postcode", JSArg.vstr "SW1A 1AA")]
        (.success ⟨200, "not json", .error "FetchError: invalid json response body"⟩)).2
      = .ok ⟨[⟨"text", "\x7b\n  \"error\": \"Request failed: FetchError: invalid json response body\"\n\x7d"⟩], none⟩ ∧
    (callTool "APIKEY123" "get_prices" [("postcode", JSArg.vstr "SW1A 1AA")]
        (.success ⟨200, "not json", .error "FetchError: invalid json response body"⟩)).2
      ≠ .ok ⟨[⟨"text", "Error: FetchError: invalid json response body"⟩], some true⟩ := by
  constructor <;> decide

/-- C4 amended: a 2xx response whose body fails to parse as JSON is caught by
the same `catch` as a network failure and delivered as a normal envelope
(error flag absent) whose single text part is the pretty-printed JSON of
`{"error": "Request failed: " ++ e}`, where `e` describes the parse
exception. -/
theorem call_tool_parse_failure_request_failed (key name path : String)
    (keys : List String) (args : Args) (status : Nat) (body e : String)
    (hreg : lookupTool name = some (path, keys))
    (h2xx : 200 ≤ status ∧ status < 300) :
    callTool key name args (.success ⟨status, body, .error e⟩)
      = ([requestURL key path (mkParams keys args)],
         .ok ⟨[⟨"text", stringify2 (errObj ("Request failed: " ++ e))⟩], none⟩) := by
  simp [callTool, hreg, propertydataCall, dispatchEnvelope, h2xx]

/-- C4 amended witness: the concrete malformed-JSON 200 response produces the
normal `"Request failed:"` envelope. -/
theorem call_tool_parse_failure_request_failed_witness :
    callTool "APIKEY123" "get_prices" [("postcode", JSArg.vstr "SW1A 1AA")]
        (.success ⟨200, "not json", .error "FetchError: invalid json response body"⟩)
      = (["https://api.propertydata.co.uk/prices?key=APIKEY123&postcode=SW1A+1AA"],
         .ok ⟨[⟨"text", "\x7b\n  \"error\": \"Request failed: FetchError: invalid json response body\"\n\x7d"⟩], none⟩) :=
  (call_tool_parse_failure_request_failed "APIKEY123" "get_prices" "/prices" ["postcode"]
      [("postcode", JSArg.vstr "SW1A 1AA")] 200 "not json"
      "FetchError: invalid json response body" (by decide) (by decide)).trans (by decide)

/-- C5: a network-level failure of the outbound call is caught and converted
to the value `{"error": "Request failed: " ++ msg}`, delivered inside a
normal non-error-flagged envelope, and is never surfaced as a thrown fault. -/
theorem call_tool_network_failure_envelope (key name path : String)
    (keys : List String) (args : Args) (msg : String)
    (hreg : lookupTool name = some (path, keys)) :
    callTool key name args (.failure msg)
      = ([requestURL key path (mkParams keys args)],
         .ok ⟨[⟨"text", stringify2 (errObj ("Request failed: " ++ msg))⟩], none⟩) ∧
    ∀ m : String, (callTool key name args (.failure msg)).2 ≠ .thrown m := by
  have hcall : callTool key name args (.failure msg)
      = ([requestURL key path (mkParams keys args)],
         .ok ⟨[⟨"text", stringify2 (errObj ("Request failed: " ++ msg))⟩], none⟩) := by
    simp [callTool, hreg, propertydataCall, dispatchEnvelope]
  exact ⟨hcall, fun m hm => by rw [hcall] at hm; exact DispatchResult.noConfusion hm⟩

/-- C5 witness: a concrete connection failure on `get_prices` is returned as
the normal `"Request failed:"` envelope. -/
theorem call_tool_network_failure_envelope_witness :
    callTool "APIKEY123" "get_prices" [("postcode", JSArg.vstr "SW1A 1AA")]
        (.failure "FetchError: connection refused")
      = (["https://api.propertydata.co.uk/prices?key=APIKEY123&postcode=SW1A+1AA"],
         .ok ⟨[⟨"text", "\x7b\n  \"error\": \"Request failed: FetchError: connection refused\"\n\x7d"⟩], none⟩) :=
  ((call_tool_network_failure_envelope "APIKEY123" "get_prices" "/prices" ["postcode"]
      [("postcode", JSArg.vstr "SW1A 1AA")] "FetchError: connection refused"
      (by decide)).1).trans (by decide)

/-- C6: the catalog's tool names and the handler table's keys are in
bijection — both lists are duplicate-free and have the same members (in fact
the source declares them in the same order). -/
theorem catalog_handler_bijection :
    catalogNames.Nodup ∧ handlerNames.Nodup ∧
      ∀ n : String, n ∈ catalogNames ↔ n ∈ handlerNames := by
  have heq : handlerNames = catalogNames := by decide
  refine ⟨by decide, ?_, ?_⟩
  · rw [heq]; decide
  · intro n; rw [heq]

/-- C7 counterexample: `call_tool("get_prices", {postcode: "SW1A 1AA"})` with
credential `APIKEY123` issues the URL with the space form-urlencoded as `+`
(`postcode=SW1A+1AA`), not percent-encoded as `%20` as the claim's concrete
example states. -/
theorem get_prices_url_encoding_cex :
    (callTool "APIKEY123" "get_prices" [("postcode", JSArg.vstr "SW1A 1AA")]
        (.failure "net down")).1
      = ["https://api.propertydata.co.uk/prices?key=APIKEY123&postcode=SW1A+1AA"] ∧
    (callTool "APIKEY123" "get_prices" [("postcode", JSArg.vstr "SW1A 1AA")]
        (.failure "net down")).1
      ≠ ["https://api.propertydata.co.uk/prices?key=APIKEY123&postcode=SW1A%201AA"] := by
  constructor <;> decide

/-- C7 amended: every invocation of a registered tool issues exactly one
outbound GET, whose URL is the base URL, the endpoint path, `?`, and the
query string consisting of the credential under the name `key` followed by
the mapped arguments, each pair form-urlencoded (space as `+`) and joined
with `&`. -/
theorem call_tool_single_get_url (key name path : String) (keys : List String)
    (args : Args) (out : FetchOutcome)
    (hreg : lookupTool name = some (path, keys)) :
    (callTool key name args out).1
      = [BASE_URL ++ path ++ "?" ++ String.intercalate "&"
          ((("key", key) :: presentParams (mkParams keys args)).map
            (fun kv => formEncode kv.1 ++ "=" ++ formEncode kv.2))] := by
  cases out with
  | failure m => simp [callTool, hreg, propertydataCall, requestURL, queryString]
  | success r =>
      simp only [callTool, hreg, propertydataCall, requestURL, queryString]
      split <;> [skip; rfl]
      cases r.json <;> rfl

/-- C7 amended witness: the `get_prices` example issues exactly the single
URL `{base}/prices?key=APIKEY123&postcode=SW1A+1AA`. -/
theorem call_tool_single_get_url_witness :
    (callTool "APIKEY123" "get_prices" [("postcode", JSArg.vstr "SW1A 1AA")]
        (.failure "net down")).1
      = ["https://api.propertydata.co.uk/prices?key=APIKEY123&postcode=SW1A+1AA"] :=
  (call_tool_single_get_url "APIKEY123" "get_prices" "/prices" ["postcode"]
      [("postcode", JSArg.vstr "SW1A 1AA")] (.failure "net down") (by decide)).trans
    (by decide)

/-- C8: each declared parameter that is present with a non-null value is
included in the outbound parameter list under the same key, stringified with
`String(value)`; each declared key whose value is absent or null contributes
no query pair at all. -/
theorem declared_params_inclusion_omission (keys : List String) (args : Args)
    (k : String) :
    (∀ v : JSArg, k ∈ keys → lookupArg args k = some v → v ≠ .vnull →
        (k, argToString v) ∈ presentParams (mkParams keys args)) ∧
    ((lookupArg args k = none ∨ lookupArg args k = some .vnull) →
        ∀ s : String, (k, s) ∉ presentParams (mkParams keys args)) :=
  ⟨fun v hk hv hnn => mem_presentParams_of_lookup keys args k v hk hv hnn,
   fun h s => not_mem_presentParams_of_absent keys args k s h⟩

/-- C8 witness: `call_tool("stamp_duty_calculator", {property_value: 500000})`
forwards `property_value=500000` and sends no `first_time_buyer` pair at all;
the resulting query string is exactly `key=APIKEY123&property_value=500000`. -/
theorem declared_params_inclusion_omission_witness :
    ("property_value", "500000") ∈ presentParams
        (mkParams ["property_value", "first_time_buyer"]
          [("property_value", JSArg.vnum "500000")]) ∧
    ("first_time_buyer", "true") ∉ presentParams
        (mkParams ["property_value", "first_time_buyer"]
          [("property_value", JSArg.vnum "500000")]) ∧
    queryString "APIKEY123" (mkParams ["property_value", "first_time_buyer"]
          [("property_value", JSArg.vnum "500000")])
      = "key=APIKEY123&property_value=500000" :=
  ⟨(declared_params_inclusion_omission ["property_value", "first_time_buyer"]
      [("property_value", JSArg.vnum "500000")] "property_value").1
      (JSArg.vnum "500000") (by decide) (by decide) (by decide),
   (declared_params_inclusion_omission ["property_value", "first_time_buyer"]
      [("property_value", JSArg.vnum "500000")] "first_time_buyer").2
      (Or.inl (by decide)) "true",
   by decide⟩

/-- C9: invoking a tool with one of its catalog-required keys missing is
never a silent empty success: the outbound query carries no pair for the
missing key (so the remote sees it absent), and the remote API's rejection
(any non-2xx status) is surfaced to the caller as the `"API Error"` failure
object in the returned envelope. -/
theorem required_param_missing_observable (key name path : String)
    (keys : List String) (r : String) (args : Args) (status : Nat)
    (body : String) (pj : Except String JVal)
    (hreg : lookupTool name = some (path, keys))
    (hreq : r ∈ requiredOf name)
    (hmiss : lookupArg args r = none)
    (hrej : ¬(200 ≤ status ∧ status < 300)) :
    (∀ s : String, (r, s) ∉ presentParams (mkParams keys args)) ∧
    (callTool key name args (.success ⟨status, body, pj⟩)).2
      = .ok ⟨[⟨"text",
          stringify2 (errObj ("API Error " ++ toString status ++ ": " ++ body))⟩], none⟩ := by
  constructor
  · exact fun s => not_mem_presentParams_of_absent keys args r s (Or.inl hmiss)
  · simp [callTool, hreg, propertydataCall, dispatchEnvelope, hrej]

/-- C9 witness: `call_tool("get_prices", {})` with required `postcode`
missing sends no `postcode` pair, and a 400 rejection from the remote API is
surfaced as the `"API Error 400"` failure envelope. -/
theorem required_param_missing_observable_witness :
    ("postcode", "SW1A+1AA") ∉ presentParams (mkParams ["postcode"] []) ∧
    (callTool "APIKEY123" "get_prices" []
        (.success ⟨400, "postcode is required", .error "SyntaxError"⟩)).2
      = .ok ⟨[⟨"text",
          "\x7b\n  \"error\": \"API Error 400: postcode is required\"\n\x7d"⟩], none⟩ :=
  ⟨(required_param_missing_observable "APIKEY123" "get_prices" "/prices" ["postcode"]
      "postcode" [] 400 "postcode is required" (.error "SyntaxError")
      (by decide) (by decide) (by decide) (by decide)).1 "SW1A+1AA",
   ((required_param_missing_observable "APIKEY123" "get_prices" "/prices" ["postcode"]
      "postcode" [] 400 "postcode is required" (.error "SyntaxError")
      (by decide) (by decide) (by decide) (by decide)).2).trans (by decide)⟩

/-- C10: the outbound request of a registered tool depends only on the
argument keys its handler forwards — two invocations whose argument objects
agree on those keys issue identical outbound URL traces, regardless of any
other keys. -/
theorem undeclared_args_never_forwarded (key name path : String)
    (keys : List String) (args1 args2 : Args) (out : FetchOutcome)
    (hreg : lookupTool name = some (path, keys))
    (hagree : ∀ k ∈ keys, lookupArg args1 k = lookupArg args2 k) :
    (callTool key name args1 out).1 = (callTool key name args2 out).1 := by
  have hp : mkParams keys args1 = mkParams keys args2 :=
    List.map_congr_left fun k hk => by rw [hagree k hk]
  simp only [callTool, hreg]
  rw [hp]

/-- C10 witness: an extra undeclared key `debug` on `get_prices` leaves the
outbound URL trace unchanged. -/
theorem undeclared_args_never_forwarded_witness :
    (callTool "APIKEY123" "get_prices"
        [("postcode", JSArg.vstr "SW1A 1AA"), ("debug", JSArg.vbool true)]
        (.failure "net down")).1
      = (callTool "APIKEY123" "get_prices" [("postcode", JSArg.vstr "SW1A 1AA")]
          (.failure "net down")).1 :=
  undeclared_args_never_forwarded "APIKEY123" "get_prices" "/prices" ["postcode"]
      [("postcode", JSArg.vstr "SW1A 1AA"), ("debug", JSArg.vbool true)]
      [("postcode", JSArg.vstr "SW1A 1AA")] (.failure "net down")
      (by decide) (by decide)

end PropertyData
